import Mathlib

/-!
Shallow embedding of the redis-backup core of `infra-toolbox`
(`src/redis_backup/api/src/domain/{value_objects,entities,aggregates}.py` and
`src/redis_backup/api/src/application/backup_service.py`) together with
theorems settling the frozen claims about it.

Conventions of the embedding:
* Python `datetime` values are modelled at one-second resolution by a record
  carrying the calendar fields used by `strftime` plus an absolute epoch-second
  count used by `datetime` subtraction (`timedelta`).
* A Python method that mutates `self` and may `raise` is modelled as a function
  returning `Except PyErr` of the updated value; returning `.error` models an
  exception raised before any field assignment, so the object is unchanged.
* Methods with no `raise` site are modelled as total functions.
* External collaborators (redis client, file storage) are oracles: each call
  site reads a prescribed `Except` outcome, one per call.
-/

namespace RedisBackup

/-- Python exception payload: the `str(e)` message attached to the exception. -/
abbrev PyErr := String

instance {ε α : Type} [DecidableEq ε] [DecidableEq α] : DecidableEq (Except ε α) :=
  fun a b =>
    match a, b with
    | .ok x, .ok y =>
      if h : x = y then .isTrue (by subst h; rfl) else .isFalse (by simp [h])
    | .ok _, .error _ => .isFalse (by simp)
    | .error _, .ok _ => .isFalse (by simp)
    | .error e, .error f =>
      if h : e = f then .isTrue (by subst h; rfl) else .isFalse (by simp [h])

/-- The call raised a Python exception (its `Except` outcome is an error). -/
def IsPyError {α : Type} (x : Except PyErr α) : Prop :=
  match x with
  | .error _ => True
  | .ok _ => False

instance {α : Type} (x : Except PyErr α) : Decidable (IsPyError x) :=
  match x with
  | .error _ => .isTrue trivial
  | .ok _ => .isFalse (fun h => h)

/-- Embedding of `JobId` value object (`value_objects.py`); the uuid is an opaque string. -/
structure JobId where
  value : String
deriving DecidableEq, Repr

/-- Embedding of `RecordId` value object (`value_objects.py`); the uuid is an opaque string. -/
structure RecordId where
  value : String
deriving DecidableEq, Repr

/-- Python `datetime` at one-second resolution: the calendar fields read by
`strftime` plus the epoch-second count that `datetime` subtraction uses. -/
structure DateTime where
  year : Nat
  month : Nat
  day : Nat
  hour : Nat
  minute : Nat
  second : Nat
  epochSec : Int
deriving DecidableEq, Repr

/-- A Python `datetime` is valid when its fields are inside the ranges
`datetime` enforces (restricted to four-digit years, the only years
`datetime.now()` can produce during the life of this service). -/
def DateTime.Valid (t : DateTime) : Prop :=
  1000 ≤ t.year ∧ t.year ≤ 9999 ∧ 1 ≤ t.month ∧ t.month ≤ 12 ∧
  1 ≤ t.day ∧ t.day ≤ 31 ∧ t.hour ≤ 23 ∧ t.minute ≤ 59 ∧ t.second ≤ 59

instance (t : DateTime) : Decidable t.Valid := by
  unfold DateTime.Valid; infer_instance

/-- Embedding of `timedelta.days` of a difference of `now - start` expressed in seconds:
Python normalises a `timedelta` so that `.days` is the floor of the total
duration in days (also for negative durations). -/
def timedeltaDays (seconds : Int) : Int :=
  Int.fdiv seconds 86400

/-- Embedding of `ErrorInfo` value object (`value_objects.py`). -/
structure ErrorInfo where
  code : String
  message : String
  stack_trace : Option String
  retry_count : Nat
deriving DecidableEq, Repr

/-- Embedding of `BackupMetadata` value object (`value_objects.py`). -/
structure BackupMetadata where
  label : Option String
  trigger_type : String
  is_important : Bool
  tags : List (String × String)
deriving DecidableEq, Repr

/-- Embedding of `ValidationResult` value object (`value_objects.py`). -/
structure ValidationResult where
  is_valid : Bool
  key_count : Nat
  memory_usage : Nat
  errors : List String
deriving DecidableEq, Repr

/-- Embedding of `BackupFile` value object (`value_objects.py`). -/
structure BackupFile where
  filename : String
  path : String
  size : Nat
  checksum : String
deriving DecidableEq, Repr

/-- Zero-padded two-digit rendering used by `strftime` for `%m %d %H %M %S`.
On the domain `datetime` enforces for these fields (values below 100) this is
exactly the Python `%02d` output, written by explicit digit extraction. -/
def pad2 (n : Nat) : String :=
  ⟨[Nat.digitChar (n / 10 % 10), Nat.digitChar (n % 10)]⟩

/-- Four-digit rendering of `%Y`. On four-digit years (`1000..9999`, the range
`DateTime.Valid` allows) this is exactly the Python `%Y` output. -/
def pad4 (n : Nat) : String :=
  ⟨[Nat.digitChar (n / 1000 % 10), Nat.digitChar (n / 100 % 10),
    Nat.digitChar (n / 10 % 10), Nat.digitChar (n % 10)]⟩

/-- Embedding of `ts.strftime("%Y%m%d_%H%M%S")` as used by `BackupFile.create`. -/
def strftimeCompact (ts : DateTime) : String :=
  pad4 ts.year ++ pad2 ts.month ++ pad2 ts.day ++ "_" ++
  pad2 ts.hour ++ pad2 ts.minute ++ pad2 ts.second

/-- Embedding of `BackupFile.create` (`value_objects.py`): builds the timestamped filename;
`size`/`checksum` are filled in later by `with_metadata`.  the Python test `if label:`
is label truthiness: `None` and `""` both select the unlabelled form. -/
def BackupFile.create (ts : DateTime) (label : Option String) (path : String) :
    BackupFile :=
  let date_str := strftimeCompact ts
  let filename :=
    match label with
    | some l =>
      if l = "" then "redis_backup_" ++ date_str ++ ".rdb"
      else "redis_backup_" ++ date_str ++ "_" ++ l ++ ".rdb"
    | none => "redis_backup_" ++ date_str ++ ".rdb"
  { filename := filename, path := path ++ "/" ++ filename, size := 0, checksum := "" }

/-- Embedding of `BackupFile.with_metadata` (`value_objects.py`). -/
def BackupFile.with_metadata (f : BackupFile) (size : Nat) (checksum : String) :
    BackupFile :=
  { filename := f.filename, path := f.path, size := size, checksum := checksum }

/-- Embedding of `BackupStatus` enum (`entities.py`). -/
inductive BackupStatus where
  | in_progress
  | completed
  | failed
  | deleted
deriving DecidableEq, Repr

/-- Python `str()` of a `BackupStatus` member, as interpolated into
`InvalidStateTransitionError` messages. -/
def BackupStatus.pyStr : BackupStatus → String
  | .in_progress => "BackupStatus.IN_PROGRESS"
  | .completed => "BackupStatus.COMPLETED"
  | .failed => "BackupStatus.FAILED"
  | .deleted => "BackupStatus.DELETED"

/-- Embedding of `TriggerType` enum (`entities.py`). -/
inductive TriggerType where
  | scheduled
  | manual
  | pre_restore
deriving DecidableEq, Repr

/-- Embedding of `.value` of a `TriggerType` member. -/
def TriggerType.pyValue : TriggerType → String
  | .scheduled => "SCHEDULED"
  | .manual => "MANUAL"
  | .pre_restore => "PRE_RESTORE"

/-- Embedding of `BackupRecord` entity (`entities.py`).  `metadata` is optional because
`BackupApplicationService.list_backups` constructs records with
`metadata=None`. -/
structure BackupRecord where
  id : RecordId
  job_id : JobId
  metadata : Option BackupMetadata
  status : BackupStatus
  start_time : DateTime
  end_time : Option DateTime
  file : Option BackupFile
  error_info : Option ErrorInfo
  progress : Int
deriving DecidableEq, Repr

/-- Embedding of `BackupRecord.create` (`entities.py`); `rid` is the generated uuid and
`now` the `datetime.now()` read at creation. -/
def BackupRecord.create (rid : RecordId) (jid : JobId) (now : DateTime)
    (trigger_type : TriggerType) (label : Option String) : BackupRecord :=
  { id := rid
    job_id := jid
    metadata := some
      { label := label, trigger_type := trigger_type.pyValue,
        is_important := false, tags := [] }
    status := .in_progress
    start_time := now
    end_time := none
    file := none
    error_info := none
    progress := 0 }

/-- Embedding of `BackupRecord.update_progress` (`entities.py`): raises
`InvalidStateTransitionError` outside `IN_PROGRESS`, else clamps the argument
into `[0, 100]` with `min(100, max(0, progress))`. -/
def BackupRecord.update_progress (r : BackupRecord) (progress : Int) :
    Except PyErr BackupRecord :=
  if r.status ≠ BackupStatus.in_progress then
    .error ("Cannot update progress in " ++ r.status.pyStr ++ " state")
  else
    .ok { r with progress := min 100 (max 0 progress) }

/-- Embedding of `BackupRecord.complete` (`entities.py`); `now` is the `datetime.now()`
read for `end_time`. -/
def BackupRecord.complete (r : BackupRecord) (now : DateTime) (file : BackupFile) :
    Except PyErr BackupRecord :=
  if r.status ≠ BackupStatus.in_progress then
    .error ("Cannot complete from " ++ r.status.pyStr ++ " state")
  else
    .ok { r with status := .completed, end_time := some now,
                 file := some file, progress := 100 }

/-- Embedding of `BackupRecord.fail` (`entities.py`): the guard `status not in
(IN_PROGRESS,)` is exactly `status ≠ IN_PROGRESS`. -/
def BackupRecord.fail (r : BackupRecord) (now : DateTime) (error : ErrorInfo) :
    Except PyErr BackupRecord :=
  if r.status ≠ BackupStatus.in_progress then
    .error ("Cannot fail from " ++ r.status.pyStr ++ " state")
  else
    .ok { r with status := .failed, end_time := some now, error_info := some error }

/-- Embedding of `BackupRecord.calculate_duration` (`entities.py`), in whole seconds
(`timedelta.total_seconds()` of second-resolution datetimes). -/
def BackupRecord.calculate_duration (r : BackupRecord) : Option Int :=
  r.end_time.map (fun e => e.epochSec - r.start_time.epochSec)

/-- Embedding of `BackupRecord.is_expired` (`entities.py`): `(now - start_time).days >
retention_days`, at integer-day granularity. -/
def BackupRecord.is_expired (r : BackupRecord) (retention_days : Int)
    (now : DateTime) : Bool :=
  retention_days < timedeltaDays (now.epochSec - r.start_time.epochSec)

/-- Embedding of `RestoreStatus` enum (`entities.py`). -/
inductive RestoreStatus where
  | pending
  | creating_snapshot
  | stopping_redis
  | copying_file
  | starting_redis
  | validating
  | completed
  | failed
  | rolled_back
deriving DecidableEq, Repr

/-- Embedding of `RestoreRecord` entity (`entities.py`). -/
structure RestoreRecord where
  id : RecordId
  job_id : JobId
  source_backup_id : RecordId
  pre_restore_snapshot_id : Option RecordId
  status : RestoreStatus
  start_time : Option DateTime
  end_time : Option DateTime
  validation : Option ValidationResult
  error_info : Option ErrorInfo
deriving DecidableEq, Repr

/-- Embedding of `RestoreRecord.update_status` (`entities.py`): unconditional assignment,
no guard, no `raise` site. -/
def RestoreRecord.update_status (r : RestoreRecord) (status : RestoreStatus) :
    RestoreRecord :=
  { r with status := status }

/-- Embedding of `RestoreRecord.set_pre_restore_snapshot` (`entities.py`). -/
def RestoreRecord.set_pre_restore_snapshot (r : RestoreRecord)
    (snapshot_id : RecordId) : RestoreRecord :=
  { r with pre_restore_snapshot_id := some snapshot_id }

/-- Embedding of `RestoreRecord.complete` (`entities.py`): unconditional, no guard. -/
def RestoreRecord.complete (r : RestoreRecord) (now : DateTime)
    (validation : ValidationResult) : RestoreRecord :=
  { r with status := .completed, end_time := some now, validation := some validation }

/-- Embedding of `RestoreRecord.fail` (`entities.py`): unconditional, no guard. -/
def RestoreRecord.fail (r : RestoreRecord) (now : DateTime) (error : ErrorInfo) :
    RestoreRecord :=
  { r with status := .failed, end_time := some now, error_info := some error }

/-- Embedding of `RestoreRecord.rollback` (`entities.py`): unconditional, no guard. -/
def RestoreRecord.rollback (r : RestoreRecord) (now : DateTime) : RestoreRecord :=
  { r with status := .rolled_back, end_time := some now }

/-- Embedding of `JobStatus` enum (`aggregates.py`). -/
inductive JobStatus where
  | idle
  | running
  | completed
  | failed
  | cancelled
deriving DecidableEq, Repr

/-- Embedding of `Schedule` value object (`value_objects.py`); cron validation is done by
the external `croniter` library and is not part of this embedding. -/
structure Schedule where
  expression : String
  timezone : String
deriving DecidableEq, Repr

/-- Embedding of `RedisConnection` value object (`value_objects.py`). -/
structure RedisConnection where
  host : String
  port : Nat
  password : Option String
  database : Nat
deriving DecidableEq, Repr

/-- Embedding of `StorageConfig` value object (`value_objects.py`). -/
structure StorageConfig where
  backup_path : String
  min_free_space : Nat
deriving DecidableEq, Repr

/-- Embedding of `BackupJob` aggregate (`aggregates.py`). -/
structure BackupJob where
  id : JobId
  schedule : Schedule
  connection : RedisConnection
  storage : StorageConfig
  status : JobStatus
  current_record : Option BackupRecord
deriving DecidableEq, Repr

/-- Embedding of `BackupJob.start` (`aggregates.py`): raises `JobAlreadyRunningError` when
already `RUNNING`, else sets `RUNNING`. -/
def BackupJob.start (j : BackupJob) : Except PyErr BackupJob :=
  if j.status = JobStatus.running then
    .error "Backup job is already running"
  else
    .ok { j with status := .running }

/-- Embedding of `BackupJob.complete` (`aggregates.py`). -/
def BackupJob.complete (j : BackupJob) : BackupJob :=
  { j with status := .idle, current_record := none }

/-- Embedding of `BackupJob.fail` (`aggregates.py`). -/
def BackupJob.failJob (j : BackupJob) : BackupJob :=
  { j with status := .idle, current_record := none }

/-- Embedding of `BackupJob.can_execute` (`aggregates.py`): ordered checks, first failing
check wins. -/
def BackupJob.can_execute (j : BackupJob) (redis_connected : Bool)
    (available_space : Nat) : Bool × String :=
  if j.status = JobStatus.running then (false, "Job is already running")
  else if !redis_connected then (false, "Redis is not connected")
  else if !(j.storage.min_free_space ≤ available_space) then
    (false, "Insufficient storage space")
  else (true, "")

/-- Embedding of `CleanupPlan` value object (`aggregates.py`).  `to_delete`/`to_keep` are
Python lists in append order. -/
structure CleanupPlan where
  to_delete : List RecordId
  to_keep : List RecordId
  reason : String
deriving DecidableEq, Repr

/-- Embedding of `RetentionPolicy` aggregate (`aggregates.py`).  The `__post_init__`
constraints are embedded separately in `RetentionPolicy.mkChecked`. -/
structure RetentionPolicy where
  retention_days : Int
  max_backups : Int
  min_backups : Int
  protected_labels : List String
deriving DecidableEq, Repr

/-- Embedding of `RetentionPolicy.__post_init__` (`aggregates.py`): rejects
`min_backups > max_backups` and `min_backups < 1`, in that order. -/
def RetentionPolicy.mkChecked (retention_days max_backups min_backups : Int)
    (protected_labels : List String) : Except PyErr RetentionPolicy :=
  if max_backups < min_backups then
    .error ("min_backups (" ++ toString min_backups ++
      ") cannot be greater than max_backups (" ++ toString max_backups ++ ")")
  else if min_backups < 1 then
    .error "min_backups must be at least 1"
  else
    .ok { retention_days := retention_days, max_backups := max_backups,
          min_backups := min_backups, protected_labels := protected_labels }

/-- The `is_protected` test inside `RetentionPolicy.evaluate`
(`aggregates.py` lines 194-197), with Python truthiness of
`backup.metadata` (`None` is falsy) and `label in protected_labels`
(a `None` label is never in a list of strings). -/
def RetentionPolicy.isProtected (p : RetentionPolicy) (b : BackupRecord) : Bool :=
  match b.metadata with
  | none => false
  | some m =>
    m.is_important ||
      (match m.label with
       | some l => p.protected_labels.contains l
       | none => false)

/-- One iteration of the classification loop of `RetentionPolicy.evaluate`
(`aggregates.py` lines 192-216), acting on the `(to_keep, to_delete)`
accumulator.  `exceeds_max` reads `len(to_keep)` before the append, exactly as
the source does. -/
def RetentionPolicy.evalStep (p : RetentionPolicy) (now : DateTime)
    (acc : List RecordId × List RecordId) (backup : BackupRecord) :
    List RecordId × List RecordId :=
  let to_keep := acc.1
  let to_delete := acc.2
  let is_protected := p.isProtected backup
  let is_expired := backup.is_expired p.retention_days now
  let exceeds_max := p.max_backups ≤ (to_keep.length : Int)
  if is_protected then (to_keep ++ [backup.id], to_delete)
  else if (to_keep.length : Int) < p.min_backups then (to_keep ++ [backup.id], to_delete)
  else if is_expired || exceeds_max then (to_keep, to_delete ++ [backup.id])
  else (to_keep ++ [backup.id], to_delete)

/-- Stable insertion of one element into a list already sorted by `start_time`
descending: skip over strictly-newer entries, stop before the first entry that
is not strictly newer, so that among equal keys earlier input elements stay
first.  Together with `sortByStartDesc` this implements the stable Python
`sorted(backups, key=lambda b: b.start_time, reverse=True)`. -/
def insertByStartDesc (x : BackupRecord) : List BackupRecord → List BackupRecord
  | [] => [x]
  | y :: ys =>
    if x.start_time.epochSec < y.start_time.epochSec then y :: insertByStartDesc x ys
    else x :: y :: ys

/-- Embedding of the Python call `sorted(backups, key=lambda b: b.start_time, reverse=True)`:
a stable sort by `start_time`, newest first. -/
def sortByStartDesc : List BackupRecord → List BackupRecord
  | [] => []
  | x :: xs => insertByStartDesc x (sortByStartDesc xs)

/-- Embedding of `RetentionPolicy.evaluate` (`aggregates.py` lines 166-222). -/
def RetentionPolicy.evaluate (p : RetentionPolicy) (backups : List BackupRecord)
    (now : DateTime) : CleanupPlan :=
  let sorted_backups := sortByStartDesc backups
  let pair := sorted_backups.foldl (p.evalStep now) ([], [])
  { to_delete := pair.2
    to_keep := pair.1
    reason := "Evaluated " ++ toString backups.length ++ " backups: keeping " ++
      toString pair.1.length ++ ", deleting " ++ toString pair.2.length }

/-- Result of one file-info query (`FileStorageAdapter.get_file_info`). -/
structure FileInfo where
  size : Nat
  checksum : String
deriving DecidableEq, Repr

/-- Oracle for the external collaborator calls made by one run of
`BackupApplicationService.execute_backup` / `_run_cleanup`
(`backup_service.py`).  Each single-shot field is the prescribed outcome of
the one call the workflow makes to it; `.error m` models the call raising an
exception whose `str` is `m`. -/
structure Collab where
  test_connection : Except PyErr Bool
  bgsave : Except PyErr Unit
  wait_for_bgsave : Except PyErr Unit
  get_rdb_path : Except PyErr String
  copy_backup : String → String → Except PyErr Unit
  get_file_info : String → Except PyErr FileInfo
  delete_backup : String → Except PyErr Bool

/-- Metrics-sink events (`MetricsCollector`), recorded in call order. -/
inductive MetricEvent where
  | success (duration : Int) (size : Nat)
  | failure
deriving DecidableEq, Repr

/-- Mutable state of one `BackupApplicationService` instance: the `_tasks`
dict (a finite map), the `_backups` history list, the process-wide
single-flight flag `_is_running`, and the metrics emitted so far. -/
structure SvcState where
  tasks : String → Option BackupRecord
  backups : List BackupRecord
  is_running : Bool
  metrics : List MetricEvent

/-- Embedding of `self._tasks[task_id] = record`: Python dict assignment. -/
def putTask (tasks : String → Option BackupRecord) (taskId : String)
    (record : BackupRecord) : String → Option BackupRecord :=
  fun k => if k = taskId then some record else tasks k

/-- Intermediate state of the `try` body of `execute_backup`: the propagating
outcome, the `record` object as mutated so far, the service state, and the
index of the next unread `datetime.now()` value. -/
structure WorkflowStep where
  outcome : Except PyErr Unit
  record : BackupRecord
  svc : SvcState
  clkIdx : Nat

/-- The deletion loop of `_run_cleanup` (`backup_service.py` lines 244-253):
for each id, look the record up in `_backups`; if present with a file, delete
the file and drop the record.  A raising `delete_backup` aborts the loop (the
exception is caught by the `except` clause of `_run_cleanup`), keeping prior removals. -/
def deleteLoop (c : Collab) : List RecordId → SvcState → SvcState
  | [], st => st
  | rid :: rest, st =>
    match st.backups.find? (fun b => b.id == rid) with
    | none => deleteLoop c rest st
    | some record =>
      match record.file with
      | none => deleteLoop c rest st
      | some f =>
        match c.delete_backup f.filename with
        | .error _ => st
        | .ok _ => deleteLoop c rest { st with backups := st.backups.erase record }

/-- Embedding of `_run_cleanup` (`backup_service.py` lines 231-256): evaluate the policy on
the COMPLETED history at `datetime.now()` (`now`) and execute the deletions;
every exception is caught and discarded. -/
def runCleanup (c : Collab) (policy : RetentionPolicy) (now : DateTime)
    (st : SvcState) : SvcState :=
  let completed_backups := st.backups.filter (fun b => b.status == BackupStatus.completed)
  let plan := policy.evaluate completed_backups now
  deleteLoop c plan.to_delete st

/-- The `try` body of `execute_backup` (`backup_service.py` lines 117-172),
with the clock reads threaded explicitly: index 0 was consumed by
`BackupRecord.create`, index 1 is the step-4 `timestamp`, index 2 the
`datetime.now()` inside `record.complete`, index 3 the `datetime.now()` that
`RetentionPolicy.evaluate` defaults to inside `_run_cleanup`. -/
def backupTry (c : Collab) (clk : Nat → DateTime) (policy : RetentionPolicy)
    (label : Option String) (record : BackupRecord) (st : SvcState) : WorkflowStep :=
  match record.update_progress 10 with
  | .error m => ⟨.error m, record, st, 1⟩
  | .ok r1 =>
  match c.test_connection with
  | .error m => ⟨.error m, r1, st, 1⟩
  | .ok conn =>
  if conn = false then ⟨.error "Redis connection failed", r1, st, 1⟩ else
  match r1.update_progress 20 with
  | .error m => ⟨.error m, r1, st, 1⟩
  | .ok r2 =>
  match c.bgsave with
  | .error m => ⟨.error m, r2, st, 1⟩
  | .ok _ =>
  match r2.update_progress 40 with
  | .error m => ⟨.error m, r2, st, 1⟩
  | .ok r3 =>
  match c.wait_for_bgsave with
  | .error m => ⟨.error m, r3, st, 1⟩
  | .ok _ =>
  match r3.update_progress 60 with
  | .error m => ⟨.error m, r3, st, 1⟩
  | .ok r4 =>
  let timestamp := clk 1
  let backup_file := BackupFile.create timestamp label "/backups"
  match c.get_rdb_path with
  | .error m => ⟨.error m, r4, st, 2⟩
  | .ok rdb_path =>
  match c.copy_backup rdb_path backup_file.filename with
  | .error m => ⟨.error m, r4, st, 2⟩
  | .ok _ =>
  match r4.update_progress 80 with
  | .error m => ⟨.error m, r4, st, 2⟩
  | .ok r5 =>
  match c.get_file_info backup_file.filename with
  | .error m => ⟨.error m, r5, st, 2⟩
  | .ok file_info =>
  let final_file := backup_file.with_metadata file_info.size file_info.checksum
  match r5.complete (clk 2) final_file with
  | .error m => ⟨.error m, r5, st, 3⟩
  | .ok r6 =>
  match r6.update_progress 100 with
  | .error m => ⟨.error m, r6, st, 3⟩
  | .ok r7 =>
  let st2 := { st with backups := st.backups ++ [r7] }
  match r7.calculate_duration with
  | none =>
    ⟨.error "AttributeError: NoneType object has no attribute total_seconds", r7, st2, 3⟩
  | some duration =>
  let st3 := { st2 with metrics := st2.metrics ++ [MetricEvent.success duration final_file.size] }
  let st4 := runCleanup c policy (clk 3) st3
  ⟨.ok (), r7, st4, 4⟩

/-- The `except Exception` handler of `execute_backup` (`backup_service.py`
lines 174-183): wrap the message in an `ErrorInfo` with code
`"BACKUP_FAILED"`, call `record.fail`, then record the failure metric.  When
`record.fail` itself raises, the new exception propagates and the failure
metric is never recorded. -/
def handleExcept (clk : Nat → DateTime) (t : WorkflowStep) : WorkflowStep :=
  match t.outcome with
  | .ok _ => t
  | .error msg =>
    let error : ErrorInfo :=
      { code := "BACKUP_FAILED", message := msg, stack_trace := none, retry_count := 0 }
    match t.record.fail (clk t.clkIdx) error with
    | .ok r2 =>
      { outcome := .ok ()
        record := r2
        svc := { t.svc with metrics := t.svc.metrics ++ [MetricEvent.failure] }
        clkIdx := t.clkIdx + 1 }
    | .error msg2 =>
      { outcome := .error msg2, record := t.record, svc := t.svc, clkIdx := t.clkIdx + 1 }

/-- Overall result of one `execute_backup` call: the outcome seen by the
caller (`.error m` models an exception escaping the call) and the service
state after the call, with the final state of the `record` object visible
through `_tasks`. -/
structure RunResult where
  result : Except PyErr Unit
  finalState : SvcState

/-- Embedding of `BackupApplicationService.execute_backup` (`backup_service.py` lines
94-186): set the single-flight flag, create and register the record, run the
`try` body, apply the `except` handler to any exception, and in `finally`
clear the flag.  `rid`/`jid` are the generated uuids and `clk` enumerates the
successive `datetime.now()` reads. -/
def executeBackup (c : Collab) (clk : Nat → DateTime) (policy : RetentionPolicy)
    (rid : RecordId) (jid : JobId) (taskId : String) (label : Option String)
    (trigger_type : TriggerType) (st0 : SvcState) : RunResult :=
  let stA := { st0 with is_running := true }
  let record0 := BackupRecord.create rid jid (clk 0) trigger_type label
  let stB := { stA with tasks := putTask stA.tasks taskId record0 }
  let t := backupTry c clk policy label record0 stB
  let h := handleExcept clk t
  { result := h.outcome
    finalState :=
      { h.svc with tasks := putTask h.svc.tasks taskId h.record, is_running := false } }

/-! ### Concrete fixtures used by the claim theorems and witnesses -/

/-- Midnight on day `n` of January 2024; `epochSec` counts from day 0. -/
def dayDT (n : Nat) : DateTime :=
  { year := 2024, month := 1, day := n, hour := 0, minute := 0, second := 0,
    epochSec := (n : Int) * 86400 }

/-- A COMPLETED, unprotected backup record started on day `n`. -/
def mkCompleted (name : String) (n : Nat) : BackupRecord :=
  { id := { value := name }
    job_id := { value := "job" }
    metadata := some { label := none, trigger_type := "SCHEDULED",
                       is_important := false, tags := [] }
    status := .completed
    start_time := dayDT n
    end_time := some (dayDT n)
    file := none
    error_info := none
    progress := 100 }

/-- The policy of scenario 1 of the spec:
`retention_days=7, max_backups=30, min_backups=3`. -/
def pol7_30_3 : RetentionPolicy :=
  { retention_days := 7, max_backups := 30, min_backups := 3, protected_labels := [] }

/-- Collaborator oracle on which every call succeeds. -/
def allOk : Collab :=
  { test_connection := .ok true
    bgsave := .ok ()
    wait_for_bgsave := .ok ()
    get_rdb_path := .ok "/data/dump.rdb"
    copy_backup := fun _ _ => .ok ()
    get_file_info := fun _ => .ok { size := 1024, checksum := "abc123" }
    delete_backup := fun _ => .ok true }

/-- Collaborator oracle whose `test_connection` reports an unreachable store;
every other call succeeds. -/
def connDown : Collab :=
  { allOk with test_connection := .ok false }

/-- A concrete clock: the `i`-th `datetime.now()` read of a run. -/
def clk0 : Nat → DateTime :=
  fun i =>
    { year := 2024, month := 1, day := 15, hour := 2, minute := 30, second := i,
      epochSec := 1705285800 + (i : Int) }

/-- A fresh service state: no tasks, no history, flag clear, no metrics. -/
def st0 : SvcState :=
  { tasks := fun _ => none, backups := [], is_running := false, metrics := [] }

/-- The run of `execute_backup` in which every collaborator call succeeds. -/
def runAllOk : RunResult :=
  executeBackup allOk clk0 pol7_30_3 { value := "rec1" } { value := "job1" }
    "t1" none .scheduled st0

/-- The run of `execute_backup` in which `test_connection()` returns false. -/
def runConnDown : RunResult :=
  executeBackup connDown clk0 pol7_30_3 { value := "rec1" } { value := "job1" }
    "t1" none .scheduled st0

/-! ### Structural lemmas about the retention algorithm -/

theorem insertByStartDesc_perm (x : BackupRecord) (l : List BackupRecord) :
    List.Perm (insertByStartDesc x l) (x :: l) := by
  induction l with
  | nil => exact List.Perm.refl _
  | cons y ys ih =>
    rw [insertByStartDesc]
    split
    · exact (ih.cons y).trans (List.Perm.swap x y ys)
    · exact List.Perm.refl _

theorem sortByStartDesc_perm (l : List BackupRecord) :
    List.Perm (sortByStartDesc l) l := by
  induction l with
  | nil => exact List.Perm.refl _
  | cons x xs ih =>
    rw [sortByStartDesc]
    exact (insertByStartDesc_perm x (sortByStartDesc xs)).trans (ih.cons x)

/-- One classification step moves exactly the id of the current backup into one of
the two output lists, preserving the combined contents. -/
theorem evalStep_append_perm (p : RetentionPolicy) (now : DateTime)
    (acc : List RecordId × List RecordId) (b : BackupRecord) :
    List.Perm ((p.evalStep now acc b).1 ++ (p.evalStep now acc b).2)
      ((acc.1 ++ acc.2) ++ [b.id]) := by
  have hkeep : List.Perm ((acc.1 ++ [b.id]) ++ acc.2) ((acc.1 ++ acc.2) ++ [b.id]) := by
    rw [List.append_assoc, List.append_assoc]
    exact List.Perm.append_left _ List.perm_append_comm
  have hdel : List.Perm (acc.1 ++ (acc.2 ++ [b.id])) ((acc.1 ++ acc.2) ++ [b.id]) := by
    rw [List.append_assoc]
  simp only [RetentionPolicy.evalStep]
  split
  · exact hkeep
  · split
    · exact hkeep
    · split
      · exact hdel
      · exact hkeep

/-- The classification fold partitions: the concatenation of the produced
`to_keep` and `to_delete` is a permutation of the accumulator contents plus
the ids of the processed backups. -/
theorem evalFold_perm (p : RetentionPolicy) (now : DateTime) :
    ∀ (l : List BackupRecord) (acc : List RecordId × List RecordId),
      List.Perm
        ((l.foldl (p.evalStep now) acc).1 ++ (l.foldl (p.evalStep now) acc).2)
        ((acc.1 ++ acc.2) ++ l.map (fun b => b.id)) := by
  intro l
  induction l with
  | nil => intro acc; simp
  | cons b bs ih =>
    intro acc
    rw [List.foldl_cons]
    refine (ih (p.evalStep now acc b)).trans ?_
    have h2 := (evalStep_append_perm p now acc b).append_right (bs.map (fun b => b.id))
    refine h2.trans ?_
    rw [List.append_assoc, List.map_cons, List.singleton_append]

/-- Appending to `to_keep` is monotone along the fold. -/
theorem evalFold_keep_mono (p : RetentionPolicy) (now : DateTime) (x : RecordId) :
    ∀ (l : List BackupRecord) (acc : List RecordId × List RecordId),
      x ∈ acc.1 → x ∈ (l.foldl (p.evalStep now) acc).1 := by
  intro l
  induction l with
  | nil => intro acc hx; exact hx
  | cons b bs ih =>
    intro acc hx
    rw [List.foldl_cons]
    refine ih (p.evalStep now acc b) ?_
    simp only [RetentionPolicy.evalStep]
    split
    · exact List.mem_append_left _ hx
    · split
      · exact List.mem_append_left _ hx
      · split
        · exact hx
        · exact List.mem_append_left _ hx

/-- A protected backup anywhere in the processed list ends up in `to_keep`. -/
theorem evalFold_protected_kept (p : RetentionPolicy) (now : DateTime)
    (b : BackupRecord) (hprot : p.isProtected b = true) :
    ∀ (l : List BackupRecord) (acc : List RecordId × List RecordId),
      b ∈ l → b.id ∈ (l.foldl (p.evalStep now) acc).1 := by
  intro l
  induction l with
  | nil => intro acc hb; cases hb
  | cons y ys ih =>
    intro acc hb
    rw [List.foldl_cons]
    rcases List.mem_cons.mp hb with rfl | hmem
    · refine evalFold_keep_mono p now b.id ys _ ?_
      simp only [RetentionPolicy.evalStep]
      rw [if_pos hprot]
      exact List.mem_append_right _ (List.mem_singleton.mpr rfl)
    · exact ih _ hmem

/-- The four completed backups of spec scenario 1, dated days 1, 5, 10, 14. -/
def c1Backups : List BackupRecord :=
  [mkCompleted "d1" 1, mkCompleted "d5" 5, mkCompleted "d10" 10, mkCompleted "d14" 14]

/-- Policy `retention_days=7, max_backups=30, min_backups=1`. -/
def polMin1 : RetentionPolicy :=
  { retention_days := 7, max_backups := 30, min_backups := 1, protected_labels := [] }

/-- A COMPLETED backup record started on day `n` and marked important
(protected). -/
def mkImportant (name : String) (n : Nat) : BackupRecord :=
  { mkCompleted name n with
      metadata := some { label := none, trigger_type := "MANUAL",
                         is_important := true, tags := [] } }

/-- An expired COMPLETED record carrying a backing file, pre-seeded in the
history so that a retention-cleanup run would delete it. -/
def oldRec : BackupRecord :=
  { mkCompleted "old1" 1 with
      file := some { filename := "redis_backup_20240101_000000.rdb",
                     path := "/backups/redis_backup_20240101_000000.rdb",
                     size := 10, checksum := "c" } }

/-- Service state whose history already holds `oldRec`. -/
def stHist : SvcState :=
  { st0 with backups := [oldRec] }

/-- All-collaborators-succeed run against the pre-seeded history and a
`min_backups=1` policy, under which a cleanup run would delete `oldRec`. -/
def runAllOkHist : RunResult :=
  executeBackup allOk clk0 polMin1 { value := "rec1" } { value := "job1" }
    "t1" none .scheduled stHist

/-- An idle `BackupJob`. -/
def idleJob : BackupJob :=
  { id := { value := "j1" }
    schedule := { expression := "0 2 * * *", timezone := "UTC" }
    connection := { host := "localhost", port := 6379, password := none, database := 0 }
    storage := { backup_path := "/backups", min_free_space := 104857600 }
    status := .idle
    current_record := none }

/-- The same job while RUNNING. -/
def runningJob : BackupJob :=
  { idleJob with status := .running }

/-- A freshly created (IN_PROGRESS) backup record. -/
def freshRec : BackupRecord :=
  BackupRecord.create { value := "w1" } { value := "jw" } (dayDT 3) .manual none

/-! ### Claim theorems -/

/-- C1 counterexample: on scenario 1 of the spec
(`retention_days=7, max_backups=30, min_backups=3`; completed backups dated
days 1, 5, 10, 14; `now` = day 15) the claim places day 5 in `to_delete`, but
`RetentionPolicy.evaluate` keeps it: when day 5 is classified only two backups
have been kept, so the `min_backups = 3` floor fires before the expiry rule. -/
theorem retention_scenario1_day5_kept :
    ({ value := "d5" } : RecordId) ∈ (pol7_30_3.evaluate c1Backups (dayDT 15)).to_keep
    ∧ ({ value := "d5" } : RecordId) ∉ (pol7_30_3.evaluate c1Backups (dayDT 15)).to_delete := by
  decide

/-- C1 amended: on scenario 1 the plan is `to_delete = {day1}` and
`to_keep = {day14, day10, day5}` — day 5, although expired, is retained by the
`min_backups = 3` floor; only day 1 is deleted. -/
theorem retention_scenario1_result :
    (pol7_30_3.evaluate c1Backups (dayDT 15)).to_delete = [{ value := "d1" }]
    ∧ (pol7_30_3.evaluate c1Backups (dayDT 15)).to_keep
      = [{ value := "d14" }, { value := "d10" }, { value := "d5" }] := by
  decide

/-- C4 counterexample: with `min_backups = 1` and two backups — the newest
protected (important), the older unprotected and expired — the claim says the
protected backup does not count toward the `min_backups` floor, so the older
backup should be kept as the one unprotected floor backup; the code counts the
protected backup in `to_keep`, the floor is already met, and the older backup
is deleted. -/
theorem retention_protected_counts_toward_floor :
    (polMin1.evaluate [mkImportant "imp14" 14, mkCompleted "old1" 1] (dayDT 15)).to_delete
      = [{ value := "old1" }]
    ∧ polMin1.isProtected (mkCompleted "old1" 1) = false
    ∧ polMin1.isProtected (mkImportant "imp14" 14) = true := by
  decide

/-- C4 amended: every protected backup (important or protected label) in the
input is always in `to_keep`, regardless of age or count; however protected
backups are appended to the same `to_keep` list whose length the
`min_backups` floor and the `max_backups` cap measure, so they do count
toward both limits when the remaining backups are classified. -/
theorem retention_protected_always_kept (p : RetentionPolicy)
    (backups : List BackupRecord) (now : DateTime) (b : BackupRecord)
    (hmem : b ∈ backups) (hprot : p.isProtected b = true) :
    b.id ∈ (p.evaluate backups now).to_keep := by
  have hb : b ∈ sortByStartDesc backups :=
    ((sortByStartDesc_perm backups).mem_iff).mpr hmem
  exact evalFold_protected_kept p now b hprot _ ([], []) hb

/-- C4 witness: the protected day-14 backup is kept in the counterexample
input. -/
theorem retention_protected_always_kept_witness :
    (mkImportant "imp14" 14).id ∈
      (polMin1.evaluate [mkImportant "imp14" 14, mkCompleted "old1" 1]
        (dayDT 15)).to_keep :=
  retention_protected_always_kept polMin1
    [mkImportant "imp14" 14, mkCompleted "old1" 1] (dayDT 15)
    (mkImportant "imp14" 14) (by decide) (by decide)

/-- C5: for completed backups with distinct identifiers,
`RetentionPolicy.evaluate` partitions exactly: the sizes of `to_keep` and
`to_delete` add up to the input size, the two are disjoint, and their union
is the input id set. -/
theorem retention_evaluate_partition (p : RetentionPolicy)
    (backups : List BackupRecord) (now : DateTime)
    (hids : (backups.map (fun b => b.id)).Nodup) :
    (p.evaluate backups now).to_keep.length
        + (p.evaluate backups now).to_delete.length = backups.length
    ∧ (∀ x, x ∈ (p.evaluate backups now).to_keep →
        x ∉ (p.evaluate backups now).to_delete)
    ∧ (∀ x, (x ∈ (p.evaluate backups now).to_keep
          ∨ x ∈ (p.evaluate backups now).to_delete)
        ↔ x ∈ backups.map (fun b => b.id)) := by
  have hperm : List.Perm
      ((p.evaluate backups now).to_keep ++ (p.evaluate backups now).to_delete)
      (backups.map (fun b => b.id)) := by
    refine (evalFold_perm p now (sortByStartDesc backups) ([], [])).trans ?_
    simpa using (sortByStartDesc_perm backups).map (fun b => b.id)
  refine ⟨?_, ?_, ?_⟩
  · have h := hperm.length_eq
    simpa [List.length_append, List.length_map] using h
  · intro x hx hx'
    have hnd : ((p.evaluate backups now).to_keep
        ++ (p.evaluate backups now).to_delete).Nodup :=
      (hperm.nodup_iff).mpr (by simpa using hids)
    exact (List.nodup_append.mp hnd).2.2 hx hx'
  · intro x
    rw [← List.mem_append]
    exact hperm.mem_iff

/-- C5 witness: the partition property instantiated on the four scenario-1
backups. -/
theorem retention_evaluate_partition_witness :
    (pol7_30_3.evaluate c1Backups (dayDT 15)).to_keep.length
      + (pol7_30_3.evaluate c1Backups (dayDT 15)).to_delete.length = 4 :=
  (retention_evaluate_partition pol7_30_3 c1Backups (dayDT 15) (by decide)).1

/-- C7: while IN_PROGRESS, `update_progress` stores its argument clamped into
`[0, 100]` (and is the identity on in-range arguments); once COMPLETED or
FAILED, `update_progress`, `complete` and `fail` all raise
`InvalidStateTransitionError` (an `.error` outcome models the exception raised
before any field assignment, so the record is unchanged), hence `complete` and
`fail` each succeed at most once per record. -/
theorem backupRecord_transition_guards (r : BackupRecord) (p : Int)
    (now : DateTime) (f : BackupFile) (e : ErrorInfo) :
    (r.status = BackupStatus.in_progress →
      r.update_progress p = .ok { r with progress := min 100 (max 0 p) }
      ∧ 0 ≤ min 100 (max 0 p) ∧ min 100 (max 0 p) ≤ 100
      ∧ (0 ≤ p → p ≤ 100 → min 100 (max 0 p) = p))
    ∧ ((r.status = BackupStatus.completed ∨ r.status = BackupStatus.failed) →
      IsPyError (r.update_progress p)
      ∧ IsPyError (r.complete now f)
      ∧ IsPyError (r.fail now e))
    ∧ (∀ r', r.complete now f = .ok r' →
      r'.status = BackupStatus.completed
      ∧ IsPyError (r'.complete now f)
      ∧ IsPyError (r'.fail now e)
      ∧ IsPyError (r'.update_progress p))
    ∧ (∀ r', r.fail now e = .ok r' →
      r'.status = BackupStatus.failed
      ∧ IsPyError (r'.complete now f)
      ∧ IsPyError (r'.fail now e)
      ∧ IsPyError (r'.update_progress p)) := by
  refine ⟨?_, ?_, ?_, ?_⟩
  · intro h
    exact ⟨by simp [BackupRecord.update_progress, h], by omega, by omega,
           fun h1 h2 => by omega⟩
  · intro h
    rcases h with h | h <;>
      exact ⟨by simp [IsPyError, BackupRecord.update_progress, h],
             by simp [IsPyError, BackupRecord.complete, h],
             by simp [IsPyError, BackupRecord.fail, h]⟩
  · intro r' hr'
    rw [BackupRecord.complete] at hr'
    split at hr'
    · cases hr'
    · cases hr'
      exact ⟨rfl, by simp [IsPyError, BackupRecord.complete],
             by simp [IsPyError, BackupRecord.fail],
             by simp [IsPyError, BackupRecord.update_progress]⟩
  · intro r' hr'
    rw [BackupRecord.fail] at hr'
    split at hr'
    · cases hr'
    · cases hr'
      exact ⟨rfl, by simp [IsPyError, BackupRecord.complete],
             by simp [IsPyError, BackupRecord.fail],
             by simp [IsPyError, BackupRecord.update_progress]⟩

/-- C7 witness: clamping at 150 on a fresh record, and the guard on a
completed record. -/
theorem backupRecord_transition_guards_witness :
    freshRec.update_progress 150 = .ok { freshRec with progress := 100 }
    ∧ IsPyError ((mkCompleted "x" 1).update_progress 50) := by
  constructor
  · have h := (backupRecord_transition_guards freshRec 150 (dayDT 3)
      { filename := "f", path := "p", size := 0, checksum := "" }
      { code := "c", message := "m", stack_trace := none, retry_count := 0 }).1 rfl
    simpa using h.1
  · exact ((backupRecord_transition_guards (mkCompleted "x" 1) 50 (dayDT 3)
      { filename := "f", path := "p", size := 0, checksum := "" }
      { code := "c", message := "m", stack_trace := none, retry_count := 0 }).2.1
      (Or.inl rfl)).1

/-- C8: `BackupJob.start` while RUNNING raises `JobAlreadyRunningError` (the
`.error` outcome models the exception raised before any assignment, so the
job is unchanged); in every other status it sets the status to RUNNING and
changes nothing else. -/
theorem backupJob_start_single_flight (j : BackupJob) :
    (j.status = JobStatus.running →
      j.start = .error "Backup job is already running")
    ∧ (j.status ≠ JobStatus.running →
      j.start = .ok { j with status := JobStatus.running }) := by
  constructor <;> intro h <;> simp [BackupJob.start, h]

/-- C8 witness: starting an idle job succeeds; starting a running job raises. -/
theorem backupJob_start_single_flight_witness :
    idleJob.start = .ok { idleJob with status := JobStatus.running }
    ∧ runningJob.start = .error "Backup job is already running" :=
  ⟨(backupJob_start_single_flight idleJob).2 (by decide),
   (backupJob_start_single_flight runningJob).1 rfl⟩

/-- C10: `RestoreRecord` enforces no state-machine guard: `update_status`,
`complete`, `fail` and `rollback` are total (never raise) and succeed from
every status — including the terminal COMPLETED, FAILED and ROLLED_BACK —
unconditionally overwriting `status` (and stamping `end_time` in the three
terminal setters); so a terminal `RestoreRecord`, unlike a terminal
`BackupRecord`, is not immutable. -/
theorem restoreRecord_unguarded (r : RestoreRecord) (s : RestoreStatus)
    (t : DateTime) (v : ValidationResult) (e : ErrorInfo) :
    r.update_status s = { r with status := s }
    ∧ r.complete t v
      = { r with status := .completed, end_time := some t, validation := some v }
    ∧ r.fail t e
      = { r with status := .failed, end_time := some t, error_info := some e }
    ∧ r.rollback t = { r with status := .rolled_back, end_time := some t }
    ∧ ((r.complete t v).complete t v).status = RestoreStatus.completed
    ∧ ((r.complete t v).fail t e).status = RestoreStatus.failed
    ∧ ((r.fail t e).rollback t).status = RestoreStatus.rolled_back
    ∧ ((r.rollback t).update_status s).status = s :=
  ⟨rfl, rfl, rfl, rfl, rfl, rfl, rfl, rfl⟩

/-- C6: on every exit path of `execute_backup` — the swallowed-failure path,
the success path, and the path where the `except` handler itself raises — the
`finally` block has cleared the process-wide single-flight flag by the time
the call finishes. -/
theorem executeBackup_always_clears_single_flight (c : Collab)
    (clk : Nat → DateTime) (policy : RetentionPolicy) (rid : RecordId)
    (jid : JobId) (taskId : String) (label : Option String) (tt : TriggerType)
    (st : SvcState) :
    (executeBackup c clk policy rid jid taskId label tt st).finalState.is_running
      = false := rfl

/-- C2 (code bug): in the run where every collaborator call succeeds, the
record is COMPLETED, but `execute_backup` then calls
`record.update_progress(100)` on the already-completed record, which raises;
the handler's `record.fail` raises again, so the call escapes with an
exception, the record is never appended to the history (the pre-seeded
history is unchanged and the expired `oldRec` that a cleanup run would have
deleted is still there), no success metric is recorded, and cleanup never
runs. -/
theorem executeBackup_success_path_commits_nothing :
    runAllOkHist.result = .error "Cannot fail from BackupStatus.COMPLETED state"
    ∧ (runAllOkHist.finalState.tasks "t1").map (fun r => r.status)
      = some BackupStatus.completed
    ∧ runAllOkHist.finalState.backups = [oldRec]
    ∧ runAllOkHist.finalState.metrics = [] := by
  decide

/-- C3 (code bug): a collaborator failure (here `test_connection()` returning
false) is handled exactly as claimed — structured `BACKUP_FAILED` error,
record FAILED, failure metric, nothing raised; but the failure arising at the
final checkpoint of the all-success run (the post-`complete`
`update_progress(100)`) escapes to the caller as an exception, with the
record left COMPLETED and no failure metric. -/
theorem executeBackup_failure_propagation :
    runConnDown.result = .ok ()
    ∧ (runConnDown.finalState.tasks "t1").map (fun r => r.status)
      = some BackupStatus.failed
    ∧ ((runConnDown.finalState.tasks "t1").bind (fun r => r.error_info)).map
        (fun e => e.code) = some "BACKUP_FAILED"
    ∧ runConnDown.finalState.metrics = [MetricEvent.failure]
    ∧ runAllOk.result = .error "Cannot fail from BackupStatus.COMPLETED state"
    ∧ (runAllOk.finalState.tasks "t1").map (fun r => r.status)
      = some BackupStatus.completed
    ∧ runAllOk.finalState.metrics = [] := by
  decide

/-- Any digit character produced by taking a value mod 10 is a decimal digit. -/
theorem digitChar_mod10_isDigit (k : Nat) : (Nat.digitChar (k % 10)).isDigit = true := by
  have h10 : k % 10 < 10 := Nat.mod_lt k (by decide)
  generalize hg : k % 10 = m at h10 ⊢
  interval_cases m <;> decide

/-- The characters of the `%Y%m%d_%H%M%S` timestamp, spelled out. -/
theorem strftimeCompact_toList (ts : DateTime) :
    (strftimeCompact ts).toList =
      [Nat.digitChar (ts.year / 1000 % 10), Nat.digitChar (ts.year / 100 % 10),
       Nat.digitChar (ts.year / 10 % 10), Nat.digitChar (ts.year % 10),
       Nat.digitChar (ts.month / 10 % 10), Nat.digitChar (ts.month % 10),
       Nat.digitChar (ts.day / 10 % 10), Nat.digitChar (ts.day % 10),
       '_',
       Nat.digitChar (ts.hour / 10 % 10), Nat.digitChar (ts.hour % 10),
       Nat.digitChar (ts.minute / 10 % 10), Nat.digitChar (ts.minute % 10),
       Nat.digitChar (ts.second / 10 % 10), Nat.digitChar (ts.second % 10)] := rfl

/-- C9: whenever the workflow reaches and passes the snapshot-copy step (all
five collaborator calls succeed), the backup file recorded on the completed
record is named exactly `redis_backup_<YYYYMMDD_HHMMSS>.rdb`, or
`redis_backup_<YYYYMMDD_HHMMSS>_<label>.rdb` when a (non-empty) label is
given, where the timestamp rendered is `clk 1` — the `datetime.now()` read
taken at the moment the snapshot copy step begins.  The timestamp field is
always 15 characters: eight digits, an underscore, six digits. -/
theorem executeBackup_filename_convention (c : Collab) (clk : Nat → DateTime)
    (policy : RetentionPolicy) (rid : RecordId) (jid : JobId) (taskId : String)
    (label : Option String) (tt : TriggerType) (st : SvcState)
    (rdbPath : String) (fi : FileInfo)
    (hconn : c.test_connection = .ok true)
    (hbg : c.bgsave = .ok ())
    (hwait : c.wait_for_bgsave = .ok ())
    (hrdb : c.get_rdb_path = .ok rdbPath)
    (hcopy : c.copy_backup rdbPath
      (BackupFile.create (clk 1) label "/backups").filename = .ok ())
    (hinfo : c.get_file_info
      (BackupFile.create (clk 1) label "/backups").filename = .ok fi) :
    (∃ rec bf,
      (executeBackup c clk policy rid jid taskId label tt st).finalState.tasks taskId
        = some rec
      ∧ rec.file = some bf
      ∧ bf.filename =
          (match label with
           | none => "redis_backup_" ++ strftimeCompact (clk 1) ++ ".rdb"
           | some l =>
             if l = "" then "redis_backup_" ++ strftimeCompact (clk 1) ++ ".rdb"
             else "redis_backup_" ++ strftimeCompact (clk 1) ++ "_" ++ l ++ ".rdb"))
    ∧ (strftimeCompact (clk 1)).toList.length = 15
    ∧ (strftimeCompact (clk 1)).toList.get? 8 = some '_'
    ∧ (∀ i, i < 15 → i ≠ 8 →
        ∃ ch, (strftimeCompact (clk 1)).toList.get? i = some ch
          ∧ ch.isDigit = true) := by
  refine ⟨?_, ?_, ?_, ?_⟩
  · simp only [executeBackup, backupTry, handleExcept, putTask,
      BackupRecord.create, BackupRecord.update_progress, BackupRecord.complete,
      BackupRecord.fail, BackupFile.with_metadata, hconn, hbg, hwait, hrdb,
      hcopy, hinfo]
    simp
    cases label <;> rfl
  · rw [strftimeCompact_toList]
    rfl
  · rw [strftimeCompact_toList]
    rfl
  · intro i h1 h2
    rw [strftimeCompact_toList]
    interval_cases i <;>
      first
        | exact absurd rfl h2
        | exact ⟨_, rfl, digitChar_mod10_isDigit _⟩

/-- C9 witness: the all-success, unlabelled run names its file from the
copy-step clock read. -/
theorem executeBackup_filename_convention_witness :
    (∃ rec bf,
      runAllOk.finalState.tasks "t1" = some rec
      ∧ rec.file = some bf
      ∧ bf.filename = "redis_backup_" ++ strftimeCompact (clk0 1) ++ ".rdb")
    ∧ (strftimeCompact (clk0 1)).toList.length = 15 := by
  have h := executeBackup_filename_convention allOk clk0 pol7_30_3
    { value := "rec1" } { value := "job1" } "t1" none .scheduled st0
    "/data/dump.rdb" { size := 1024, checksum := "abc123" }
    rfl rfl rfl rfl rfl rfl
  exact ⟨h.1, h.2.1⟩

end RedisBackup
